import Mathlib

/-!
Verification of the query/aggregation engine of `src/dash_public.py`
(a Streamlit dashboard running DuckDB SQL over a parquet file of
household records).

The embedding models:
* a parquet row as `Record` (the `hh_id` column is nullable, hence
  `Option String`; DuckDB `COUNT(hh_id)` / `COUNT(DISTINCT hh_id)` skip
  `NULL` values);
* the dataset as a `List Record` (a SQL table is a multiset; the list
  order stands for the engine-defined physical row order that DuckDB is
  free to use when no ORDER BY key discriminates);
* `load_and_prepare_metadata` (the `SELECT DISTINCT ... ORDER BY ...`
  dropdown queries) as `load_states` / `load_years` / `load_months`;
* `get_districts_for_state` as a Lean function of the same name;
* `get_caste_distribution_duckdb_optimized` as
  `get_caste_distribution`: WHERE-clause construction (`rowMatches`),
  GROUP BY caste, caste_category (`groupKeys` / `groupCounts`),
  the count rule (`countHH`), the window total `SUM(cnt) OVER ()`
  (`grandTotalOf`), `ROUND(CAST(cnt AS DOUBLE) * 100.0 / total, 2)`
  (`round2`, modelled over `ℚ`), and
  `ROW_NUMBER() OVER (ORDER BY cnt DESC)` together with the final
  `ORDER BY "Households Count" DESC` (a single stable sort
  `List.insertionSort countGE`, standing for the one consistent order
  the single SQL query produces; ties keep the engine-defined group
  order);
* string ORDER BY (binary collation) as the executable lexicographic
  comparator `strLeB` on code points;
* the `try/except` of the Python function as
  `get_caste_distribution_exc` over `Option Dataset`: `none` stands for
  an unreachable dataset, and the `except` branch returns
  `(empty DataFrame, 0)` after displaying the error in the UI, i.e. it
  never propagates an exception to its caller.

Division-by-zero note: when every group count is 0 the SQL percentage is
a DOUBLE `NaN`; in `ℚ` division by 0 yields 0.  No claim depends on that
degenerate case (percentage claims assume a positive grand total).
-/

/-- One row of `new_replication_panel.parquet`, with the columns the
queries in `src/dash_public.py` touch.  `hh_id` is nullable. -/
structure Record where
  hh_id : Option String
  state : String
  district : String
  date_year : Int
  date_month : Int
  caste : String
  caste_category : String
deriving DecidableEq, Repr

abbrev Dataset := List Record

/-- The filter selection handed to
`get_caste_distribution_duckdb_optimized` (its parameters
`state, year, month, view_entire_panel_flag, district`). -/
structure FilterSpec where
  state : String
  year : Int
  month : Int
  panelMode : Bool
  district : String
deriving DecidableEq, Repr

/-- One row of the result DataFrame: caste, caste_category,
"Households Count", "Percentage (%)", "Rank". -/
structure RankedRow where
  caste : String
  caste_category : String
  householdsCount : Nat
  percentage : ℚ
  rank : Nat
deriving DecidableEq, Repr

/-- The sentinel district option the dashboard inserts
(`'Entire State'`). -/
def ENTIRE_STATE : String := "Entire State"

/-! ### String ordering (SQL `ORDER BY` on string columns)

DuckDB sorts strings by binary collation.  We model it with an
executable lexicographic comparison on code points, kept structural so
the kernel can evaluate it on concrete inputs. -/

/-- Code-point comparison of characters. -/
def charLtB (a b : Char) : Bool := a.val < b.val

/-- Lexicographic strict comparison of character lists. -/
def listLtB : List Char → List Char → Bool
  | [], [] => false
  | [], _ :: _ => true
  | _ :: _, [] => false
  | a :: as, b :: bs => if a = b then listLtB as bs else charLtB a b

/-- `s ≤ t` in the collation used for SQL `ORDER BY`. -/
def strLeB (s t : String) : Bool := !(listLtB t.data s.data)

/-- Insert a string into an already sorted list (ascending). -/
def insertStr (x : String) : List String → List String
  | [] => [x]
  | y :: ys => if strLeB x y then x :: y :: ys else y :: insertStr x ys

/-- Insertion sort, modelling `ORDER BY` on a string column. -/
def sortStrings : List String → List String
  | [] => []
  | x :: xs => insertStr x (sortStrings xs)

/-- Insertion sort on `Int`, modelling `ORDER BY` on an integer
column. -/
def sortInts (l : List Int) : List Int :=
  List.insertionSort (· ≤ ·) l

/-! ### Metadata queries (`load_and_prepare_metadata`) -/

/-- `SELECT DISTINCT state FROM ... ORDER BY state`, as a list. -/
def load_states (d : Dataset) : List String :=
  sortStrings (d.map (·.state)).dedup

/-- `SELECT DISTINCT date_year FROM ... ORDER BY date_year`. -/
def load_years (d : Dataset) : List Int :=
  sortInts (d.map (·.date_year)).dedup

/-- `SELECT DISTINCT date_month FROM ... ORDER BY date_month`. -/
def load_months (d : Dataset) : List Int :=
  sortInts (d.map (·.date_month)).dedup

/-! ### `get_districts_for_state` -/

/-- `get_districts_for_state` of `src/dash_public.py`:
`SELECT DISTINCT district ... WHERE state = '{state}' ORDER BY district`
followed by
`if 'Entire State' not in districts: districts.insert(0, 'Entire State')`.
Note the membership test is over the whole list, not the first
element. -/
def get_districts_for_state (d : Dataset) (state : String) : List String :=
  let districts := sortStrings ((d.filter (fun r => r.state == state)).map (·.district)).dedup
  if ENTIRE_STATE ∈ districts then districts else ENTIRE_STATE :: districts

/-! ### `get_caste_distribution_duckdb_optimized` -/

/-- The WHERE-clause conjunction built at lines 138-153 of
`src/dash_public.py`:
`state = '{state}'` always; `date_year = {year} AND date_month = {month}`
only when the panel flag is off; `district = '{district}'` only when the
Python value `district` is truthy (non-empty) and differs from
`'Entire State'`. -/
def rowMatches (spec : FilterSpec) (r : Record) : Bool :=
  (r.state == spec.state)
  && (spec.panelMode || (r.date_year == spec.year && r.date_month == spec.month))
  && (!(spec.district != "" && spec.district != ENTIRE_STATE) || r.district == spec.district)

/-- The rows passing the WHERE clause. -/
def filteredRows (d : Dataset) (spec : FilterSpec) : List Record :=
  d.filter (rowMatches spec)

/-- The rows of one GROUP BY group, keyed by (caste, caste_category). -/
def groupRows (rows : List Record) (k : String × String) : List Record :=
  rows.filter (fun r => (r.caste, r.caste_category) = k)

/-- The count rule of line 143:
`COUNT(DISTINCT hh_id)` when the panel flag is on, `COUNT(hh_id)`
otherwise.  Both SQL aggregates skip NULL `hh_id` values, hence the
`filterMap`. -/
def countHH (panel : Bool) (g : List Record) : Nat :=
  if panel then ((g.filterMap (·.hh_id)).dedup).length
  else (g.filterMap (·.hh_id)).length

/-- The distinct GROUP BY keys of the filtered rows. -/
def groupKeys (rows : List Record) : List (String × String) :=
  (rows.map (fun r => (r.caste, r.caste_category))).dedup

/-- Each group key paired with its count. -/
def groupCounts (panel : Bool) (rows : List Record) : List ((String × String) × Nat) :=
  (groupKeys rows).map (fun k => (k, countHH panel (groupRows rows k)))

/-- The window total `SUM(count) OVER ()` of line 144: the sum of the
group counts of the same filtered set. -/
def grandTotalOf (gcs : List ((String × String) × Nat)) : Nat :=
  (gcs.map (·.2)).sum

/-- Order used by `ROW_NUMBER() OVER (ORDER BY cnt DESC)` and the final
`ORDER BY "Households Count" DESC`: count descending.  The SQL ORDER BY
has no secondary key, so ties stay in engine-defined group order; the
stable insertion sort realizes one such order. -/
def countGE (a b : (String × String) × Nat) : Prop := b.2 ≤ a.2

instance : DecidableRel countGE :=
  fun a b => inferInstanceAs (Decidable (b.2 ≤ a.2))

instance : IsTotal ((String × String) × Nat) countGE :=
  ⟨fun a b => Nat.le_total b.2 a.2⟩

instance : IsTrans ((String × String) × Nat) countGE :=
  ⟨fun _ _ _ hab hbc => le_trans hbc hab⟩

/-- `ROUND(x, 2)` of DuckDB on a non-negative value, over `ℚ`. -/
def round2 (q : ℚ) : ℚ := (round (q * 100) : ℤ) / 100

/-- Assemble the result DataFrame rows from the sorted group counts:
`ROW_NUMBER` is the 1-based position, the percentage divides by the
window total. -/
def mkRankedRows (gcs : List ((String × String) × Nat)) (total : Nat) : List RankedRow :=
  gcs.enum.map (fun p =>
    ⟨p.2.1.1, p.2.1.2, p.2.2, round2 ((p.2.2 : ℚ) * 100 / (total : ℚ)), p.1 + 1⟩)

/-- `get_caste_distribution_duckdb_optimized` of `src/dash_public.py`
(success path): runs the single grouped/ranked query, then computes
`total_households_in_state` by summing the "Households Count" column of
the result DataFrame (0 when the DataFrame is empty). -/
def get_caste_distribution (d : Dataset) (spec : FilterSpec) : List RankedRow × Nat :=
  let gcs := groupCounts spec.panelMode (filteredRows d spec)
  let result := mkRankedRows (List.insertionSort countGE gcs) (grandTotalOf gcs)
  (result, (result.map (·.householdsCount)).sum)

/-- The error taxonomy named by the spec. -/
inductive DataError where
  | DataUnavailable
  | InvalidFilter
deriving DecidableEq, Repr

/-- `get_caste_distribution_duckdb_optimized` with its `try/except`:
`none` stands for an unreachable dataset.  The `except` branch of lines
179-181 displays the error in the UI and returns
`(pd.DataFrame(), 0)` — a normal value, not an exception — so the
embedding never produces `.error`. -/
def get_caste_distribution_exc (dopt : Option Dataset) (spec : FilterSpec) :
    Except DataError (List RankedRow × Nat) :=
  match dopt with
  | some d => .ok (get_caste_distribution d spec)
  | none => .ok ([], 0)

/-- Modelled from the spec: the predicate conjunction of section 4.3
step 1, word for word — `subRegion = spec.subRegion` is added exactly
when `spec.subRegion != WHOLE_REGION_SENTINEL`, with no condition on the
value being non-empty. -/
def specWordsMatches (spec : FilterSpec) (r : Record) : Bool :=
  (r.state == spec.state)
  && (spec.panelMode || (r.date_year == spec.year && r.date_month == spec.month))
  && (!(spec.district != ENTIRE_STATE) || r.district == spec.district)

/-! ### Concrete data used in counterexamples and witnesses -/

/-- A household observed in two periods plus a second household. -/
def dPanel : Dataset :=
  [⟨some "h1", "A", "X", 2020, 1, "C1", "K1"⟩,
   ⟨some "h1", "A", "X", 2021, 1, "C1", "K1"⟩,
   ⟨some "h2", "A", "X", 2020, 1, "C2", "K2"⟩]

/-- Panel-mode selection for state A. -/
def specPanel : FilterSpec := ⟨"A", 2020, 1, true, "Entire State"⟩

/-- Period-mode selection for state A, January 2020. -/
def specPeriod : FilterSpec := ⟨"A", 2020, 1, false, "Entire State"⟩

/-- Two groups with counts 2 and 1 (the worked scenario of the spec). -/
def dRanked : Dataset :=
  [⟨some "h1", "A", "X", 2020, 1, "Brahmin", "General"⟩,
   ⟨some "h2", "A", "X", 2020, 1, "Brahmin", "General"⟩,
   ⟨some "h3", "A", "X", 2020, 1, "Yadav", "OBC"⟩]

/-- Two tied groups, physical row order CasteA then CasteB. -/
def dTieXY : Dataset :=
  [⟨some "h1", "A", "X", 2020, 1, "CasteA", "K"⟩,
   ⟨some "h2", "A", "X", 2020, 1, "CasteB", "K"⟩]

/-- The same two rows in the opposite physical order. -/
def dTieYX : Dataset :=
  [⟨some "h2", "A", "X", 2020, 1, "CasteB", "K"⟩,
   ⟨some "h1", "A", "X", 2020, 1, "CasteA", "K"⟩]

/-- One real household plus a row whose hh_id is NULL in the same
group. -/
def dNull : Dataset :=
  [⟨some "h1", "A", "X", 2020, 1, "C1", "K1"⟩,
   ⟨none, "A", "X", 2020, 1, "C1", "K1"⟩]

/-- A state whose real district values include the literal text
Entire State, sorting after Agra. -/
def dDistricts : Dataset :=
  [⟨some "h1", "A", "Agra", 2020, 1, "C", "K"⟩,
   ⟨some "h2", "A", "Entire State", 2020, 1, "C", "K"⟩]

/-- A state with one ordinary district. -/
def dBhopal : Dataset :=
  [⟨some "h1", "A", "Bhopal", 2020, 1, "C", "K"⟩]

/-- A single-row dataset whose only state is A. -/
def dOneRow : Dataset :=
  [⟨some "h1", "A", "X", 2020, 1, "C", "K"⟩]

/-! ### Helper lemmas -/

theorem mem_insertStr {x y : String} {l : List String} :
    y ∈ insertStr x l ↔ y = x ∨ y ∈ l := by
  induction l with
  | nil => simp [insertStr]
  | cons z zs ih =>
    by_cases h : strLeB x z = true
    · simp [insertStr, h]
    · simp only [insertStr, if_neg h, List.mem_cons, ih]
      tauto

theorem mem_sortStrings {x : String} {l : List String} :
    x ∈ sortStrings l ↔ x ∈ l := by
  induction l with
  | nil => simp [sortStrings]
  | cons z zs ih => simp [sortStrings, mem_insertStr, ih]

theorem mem_load_states {d : Dataset} {s : String} :
    s ∈ load_states d ↔ s ∈ d.map (·.state) := by
  simp [load_states, mem_sortStrings, List.mem_dedup]

theorem mem_load_years {d : Dataset} {y : Int} :
    y ∈ load_years d ↔ y ∈ d.map (·.date_year) := by
  simp [load_years, sortInts, List.mem_insertionSort, List.mem_dedup]

theorem mem_load_months {d : Dataset} {m : Int} :
    m ∈ load_months d ↔ m ∈ d.map (·.date_month) := by
  simp [load_months, sortInts, List.mem_insertionSort, List.mem_dedup]

theorem length_filterMap_hh_of_all_some {l : List Record}
    (h : ∀ r ∈ l, (r.hh_id).isSome) :
    (l.filterMap (·.hh_id)).length = l.length := by
  induction l with
  | nil => rfl
  | cons r t ih =>
    have hr : (r.hh_id).isSome := h r (List.mem_cons_self r t)
    obtain ⟨v, hv⟩ := Option.isSome_iff_exists.1 hr
    have ht : ∀ x ∈ t, (x.hh_id).isSome := fun x hx => h x (List.mem_cons_of_mem r hx)
    simp [List.filterMap_cons, hv, ih ht]

theorem length_filterMap_hh_eq_length_filter (l : List Record) :
    (l.filterMap (·.hh_id)).length = (l.filter (fun r => (r.hh_id).isSome)).length := by
  induction l with
  | nil => rfl
  | cons r t ih =>
    cases hv : r.hh_id with
    | none => simp [List.filterMap_cons, List.filter_cons, hv, ih]
    | some v => simp [List.filterMap_cons, List.filter_cons, hv, ih]

theorem map_count_mkRankedRows (gcs : List ((String × String) × Nat)) (total : Nat) :
    (mkRankedRows gcs total).map (·.householdsCount) = gcs.map (·.2) := by
  unfold mkRankedRows
  rw [List.map_map]
  rw [show ((fun row : RankedRow => row.householdsCount) ∘ fun p : Nat × ((String × String) × Nat) =>
      (⟨p.2.1.1, p.2.1.2, p.2.2, round2 ((p.2.2 : ℚ) * 100 / (total : ℚ)), p.1 + 1⟩ : RankedRow)) =
      ((fun kc : (String × String) × Nat => kc.2) ∘ Prod.snd) from rfl]
  rw [← List.map_map, List.enum_map_snd]

theorem map_pct_mkRankedRows (gcs : List ((String × String) × Nat)) (total : Nat) :
    (mkRankedRows gcs total).map (·.percentage) =
      gcs.map (fun kc => round2 ((kc.2 : ℚ) * 100 / (total : ℚ))) := by
  unfold mkRankedRows
  rw [List.map_map]
  rw [show ((fun row : RankedRow => row.percentage) ∘ fun p : Nat × ((String × String) × Nat) =>
      (⟨p.2.1.1, p.2.1.2, p.2.2, round2 ((p.2.2 : ℚ) * 100 / (total : ℚ)), p.1 + 1⟩ : RankedRow)) =
      ((fun kc : (String × String) × Nat => round2 ((kc.2 : ℚ) * 100 / (total : ℚ))) ∘ Prod.snd) from rfl]
  rw [← List.map_map, List.enum_map_snd]

theorem map_rank_mkRankedRows (gcs : List ((String × String) × Nat)) (total : Nat) :
    (mkRankedRows gcs total).map (·.rank) = (List.range gcs.length).map (· + 1) := by
  unfold mkRankedRows
  rw [List.map_map]
  rw [show ((fun row : RankedRow => row.rank) ∘ fun p : Nat × ((String × String) × Nat) =>
      (⟨p.2.1.1, p.2.1.2, p.2.2, round2 ((p.2.2 : ℚ) * 100 / (total : ℚ)), p.1 + 1⟩ : RankedRow)) =
      ((fun i : Nat => i + 1) ∘ Prod.fst) from rfl]
  rw [← List.map_map, List.enum_map_fst]

/-- The returned grand total is definitionally the sum of the result
column; this helper restates it. -/
theorem total_def (d : Dataset) (spec : FilterSpec) :
    (get_caste_distribution d spec).2 =
      (((get_caste_distribution d spec).1).map (·.householdsCount)).sum := rfl

/-- The returned grand total equals the window total
`SUM(count) OVER ()` used as the percentage denominator. -/
theorem total_eq_grandTotal (d : Dataset) (spec : FilterSpec) :
    (get_caste_distribution d spec).2 =
      grandTotalOf (groupCounts spec.panelMode (filteredRows d spec)) := by
  rw [total_def]
  show ((mkRankedRows (List.insertionSort countGE _) _).map (·.householdsCount)).sum = _
  rw [map_count_mkRankedRows]
  exact ((List.perm_insertionSort countGE _).map (·.2)).sum_eq

theorem mem_sorted_gcs {panel : Bool} {rows : List Record}
    {kc : (String × String) × Nat}
    (h : kc ∈ List.insertionSort countGE (groupCounts panel rows)) :
    kc.2 = countHH panel (groupRows rows kc.1) := by
  have hm : kc ∈ groupCounts panel rows := (List.mem_insertionSort countGE).1 h
  obtain ⟨k, _, rfl⟩ := List.mem_map.1 hm
  rfl

/-- Shape of any row of the result DataFrame: its count is the count of
its own group, and its percentage divides that count by the returned
grand total. -/
theorem mem_result {d : Dataset} {spec : FilterSpec} {x : RankedRow}
    (hx : x ∈ (get_caste_distribution d spec).1) :
    x.householdsCount =
      countHH spec.panelMode (groupRows (filteredRows d spec) (x.caste, x.caste_category)) ∧
    x.percentage =
      round2 ((x.householdsCount : ℚ) * 100 / ((get_caste_distribution d spec).2 : ℚ)) := by
  rw [total_eq_grandTotal]
  obtain ⟨p, hp, rfl⟩ := List.mem_map.1 hx
  have hsnd : p.2 ∈ List.insertionSort countGE (groupCounts spec.panelMode (filteredRows d spec)) := by
    have h := List.enum_map_snd (List.insertionSort countGE (groupCounts spec.panelMode (filteredRows d spec)))
    exact h ▸ List.mem_map_of_mem Prod.snd hp
  exact ⟨mem_sorted_gcs hsnd, rfl⟩

/-- The result DataFrame is empty iff the WHERE clause matched no
rows. -/
theorem result_nil_iff (d : Dataset) (spec : FilterSpec) :
    (get_caste_distribution d spec).1 = [] ↔ filteredRows d spec = [] := by
  show mkRankedRows _ _ = [] ↔ _
  rw [mkRankedRows, List.map_eq_nil_iff, List.enum_eq_nil]
  constructor
  · intro h
    have hg : groupCounts spec.panelMode (filteredRows d spec) = [] :=
      (h ▸ List.perm_insertionSort countGE _ : ([] : List ((String × String) × Nat)).Perm _).symm.eq_nil
    rw [groupCounts, List.map_eq_nil_iff, groupKeys, List.dedup_eq_nil, List.map_eq_nil_iff] at hg
    exact hg
  · intro h
    simp [groupCounts, groupKeys, h]

theorem result_empty_of_filtered_nil {d : Dataset} {spec : FilterSpec}
    (h : filteredRows d spec = []) :
    get_caste_distribution d spec = ([], 0) := by
  have h1 : (get_caste_distribution d spec).1 = [] := (result_nil_iff d spec).2 h
  have h2 : (get_caste_distribution d spec).2 = 0 := by rw [total_def, h1]; rfl
  calc get_caste_distribution d spec
      = ((get_caste_distribution d spec).1, (get_caste_distribution d spec).2) := rfl
    _ = ([], 0) := by rw [h1, h2]

/-! ### Claims -/

/-- C1: for every FilterSpec, the grand total returned by the
aggregation equals the sum of householdsCount over the returned rows —
it is computed by summing the result column (line 175 of
src/dash_public.py), not fetched independently; in particular this holds
in panel mode, where the counts are distinct-household counts. -/
theorem c1_grand_total_is_row_sum (d : Dataset) (spec : FilterSpec) :
    (get_caste_distribution d spec).2 =
      (((get_caste_distribution d spec).1).map (·.householdsCount)).sum := rfl

/-- C2 counterexample: the claim says the sub-region predicate is added
iff the sub-region differs from the sentinel.  The code (line 150) also
requires the Python value to be truthy: with district equal to the empty
string the code adds no district predicate and the row matches, while
the predicate conjunction described by the spec would reject the row. -/
theorem c2_counterexample :
    rowMatches ⟨"A", 2020, 1, true, ""⟩ ⟨some "h", "A", "X", 2020, 1, "c", "k"⟩ = true ∧
    specWordsMatches ⟨"A", 2020, 1, true, ""⟩ ⟨some "h", "A", "X", 2020, 1, "c", "k"⟩ = false := by
  decide

/-- C2 amended: the WHERE conjunction is exactly — state always; year
and month iff panel mode is off; district iff the district value is
non-empty AND differs from the sentinel Entire State. -/
theorem c2_filter_predicate (spec : FilterSpec) (r : Record) :
    rowMatches spec r = true ↔
      (r.state = spec.state ∧
       (spec.panelMode = false → r.date_year = spec.year ∧ r.date_month = spec.month) ∧
       ((spec.district ≠ "" ∧ spec.district ≠ ENTIRE_STATE) → r.district = spec.district)) := by
  cases hp : spec.panelMode <;>
    by_cases h1 : spec.district = "" <;>
      by_cases h2 : spec.district = ENTIRE_STATE <;>
        simp [rowMatches, hp, h1, h2, and_assoc]

/-- C5 counterexample: on an unreachable dataset the function does not
surface a DataUnavailable error to its caller — the except branch
(lines 179-181) displays the error in the UI and returns the normal
value (empty DataFrame, 0). -/
theorem c5_counterexample :
    get_caste_distribution_exc none ⟨"A", 2020, 1, false, "Entire State"⟩ =
      Except.ok ([], 0) := rfl

/-- C5 amended: the result is (empty sequence, 0) exactly when the
predicate conjunction matches zero rows — a normal result — and on an
unreachable dataset the code suppresses the error and returns the very
same (empty sequence, 0) value to its caller instead of failing. -/
theorem c5_empty_result_semantics (d : Dataset) (spec : FilterSpec) :
    (get_caste_distribution d spec = ([], 0) ↔ filteredRows d spec = []) ∧
    get_caste_distribution_exc none spec = Except.ok ([], 0) := by
  refine ⟨⟨fun h => ?_, fun h => result_empty_of_filtered_nil h⟩, rfl⟩
  have h1 : (get_caste_distribution d spec).1 = [] := by rw [h]
  exact (result_nil_iff d spec).1 h1

/-- C6 counterexample: when a real district value equals the sentinel
text but does not sort first, the code (which tests membership in the
whole list, line 112) does not prepend, so element 0 is Agra, not the
sentinel — against the claim that element 0 is always the sentinel and
that it is prepended unless already present as the FIRST element. -/
theorem c6_counterexample :
    get_districts_for_state dDistricts "A" = ["Agra", "Entire State"] ∧
    (get_districts_for_state dDistricts "A").head? ≠ some ENTIRE_STATE := by
  decide

/-- C6 amended: the sentinel is prepended unless it already occurs
anywhere among the sorted distinct sub-region values; in particular,
whenever the sentinel text is not a real district value of the region —
including when the region has zero real sub-region values — element 0 of
the returned domain is the sentinel. -/
theorem c6_sentinel_prepended (d : Dataset) (region : String)
    (h : ENTIRE_STATE ∉ (d.filter (fun r => r.state == region)).map (·.district)) :
    (get_districts_for_state d region).head? = some ENTIRE_STATE := by
  unfold get_districts_for_state
  have hmem : ENTIRE_STATE ∉
      sortStrings ((d.filter (fun r => r.state == region)).map (·.district)).dedup := by
    rw [mem_sortStrings, List.mem_dedup]; exact h
  simp [hmem]

theorem c6_sentinel_prepended_witness :
    (ENTIRE_STATE ∉ (dBhopal.filter (fun r => r.state == "A")).map (·.district)) ∧
    (get_districts_for_state dBhopal "A").head? = some ENTIRE_STATE :=
  ⟨by decide, c6_sentinel_prepended dBhopal "A" (by decide)⟩

/-- C8: when the panel flag is on, the returned rows and grand total do
not depend on the supplied year and month — the query neither filters on
them nor mentions them anywhere else. -/
theorem c8_panel_ignores_period (d : Dataset) (st di : String) (y1 m1 y2 m2 : Int) :
    get_caste_distribution d ⟨st, y1, m1, true, di⟩ =
      get_caste_distribution d ⟨st, y2, m2, true, di⟩ := rfl

/-! ### Further helpers for the counting, validation and ranking claims -/

theorem result_unfold (d : Dataset) (spec : FilterSpec) :
    (get_caste_distribution d spec).1 =
      mkRankedRows
        (List.insertionSort countGE (groupCounts spec.panelMode (filteredRows d spec)))
        (grandTotalOf (groupCounts spec.panelMode (filteredRows d spec))) := rfl

theorem length_mkRankedRows (gcs : List ((String × String) × Nat)) (total : Nat) :
    (mkRankedRows gcs total).length = gcs.length := by
  simp [mkRankedRows, List.enum_length]

theorem state_eq_of_rowMatches {spec : FilterSpec} {r : Record}
    (h : rowMatches spec r = true) : r.state = spec.state := by
  simp only [rowMatches, Bool.and_eq_true, beq_iff_eq] at h
  exact h.1.1

theorem period_eq_of_rowMatches {spec : FilterSpec} {r : Record}
    (h : rowMatches spec r = true) (hp : spec.panelMode = false) :
    r.date_year = spec.year ∧ r.date_month = spec.month := by
  simp only [rowMatches, hp, Bool.and_eq_true, Bool.false_or, beq_iff_eq] at h
  exact h.1.2

/-- C3: for every group of the filtered rows (assuming every record
carries a household identifier, as the data model of the spec has it),
the count is the number of distinct household identifiers of the group
in panel mode and the number of matching rows of the group in period
mode; a household observed in several periods within the window is hence
counted once per period row in period mode and once overall in panel
mode. -/
theorem c3_counting_rule (d : Dataset) (spec : FilterSpec)
    (hnn : d.all (fun r => (r.hh_id).isSome) = true) :
    ∀ c k n, (c, k, n) ∈ ((get_caste_distribution d spec).1).map
        (fun row => (row.caste, row.caste_category, row.householdsCount)) →
      n = if spec.panelMode then
            ((groupRows (filteredRows d spec) (c, k)).filterMap (·.hh_id)).toFinset.card
          else (groupRows (filteredRows d spec) (c, k)).length := by
  intro c k n hmem
  obtain ⟨row, hrow, heq⟩ := List.mem_map.1 hmem
  simp only [Prod.mk.injEq] at heq
  obtain ⟨hc, hk, hn⟩ := heq
  subst hc; subst hk; subst hn
  have h1 := (mem_result hrow).1
  rw [h1, countHH]
  cases hpanel : spec.panelMode with
  | true =>
    rw [if_pos rfl, if_pos rfl]
    exact (List.card_toFinset _).symm
  | false =>
    rw [if_neg Bool.false_ne_true, if_neg Bool.false_ne_true]
    apply length_filterMap_hh_of_all_some
    intro r hr
    have hrf : r ∈ filteredRows d spec := (List.mem_filter.1 hr).1
    have hrd : r ∈ d := (List.mem_filter.1 hrf).1
    exact List.all_eq_true.1 hnn r hrd

theorem c3_counting_rule_witness :
    dPanel.all (fun r => (r.hh_id).isSome) = true ∧
    ("C1", "K1", 1) ∈ ((get_caste_distribution dPanel specPanel).1).map
        (fun row => (row.caste, row.caste_category, row.householdsCount)) ∧
    (groupRows (filteredRows dPanel specPanel) ("C1", "K1")).length = 2 ∧
    1 = if specPanel.panelMode then
          ((groupRows (filteredRows dPanel specPanel) ("C1", "K1")).filterMap (·.hh_id)).toFinset.card
        else (groupRows (filteredRows dPanel specPanel) ("C1", "K1")).length :=
  ⟨by decide, by decide, by decide,
   c3_counting_rule dPanel specPanel (by decide) "C1" "K1" 1 (by decide)⟩

/-- C10 (implicit): the per-group count is COUNT(hh_id) in period mode
and COUNT(DISTINCT hh_id) in panel mode, both of which skip rows whose
household identifier is NULL — such a row passes the WHERE clause yet
contributes neither to its group count nor (hence) to the grand
total. -/
theorem c10_null_hh_ignored (d : Dataset) (spec : FilterSpec) :
    ∀ c k n, (c, k, n) ∈ ((get_caste_distribution d spec).1).map
        (fun row => (row.caste, row.caste_category, row.householdsCount)) →
      (spec.panelMode = false →
        n = ((groupRows (filteredRows d spec) (c, k)).filter
              (fun r => (r.hh_id).isSome)).length) ∧
      (spec.panelMode = true →
        n = ((groupRows (filteredRows d spec) (c, k)).filterMap (·.hh_id)).toFinset.card) := by
  intro c k n hmem
  obtain ⟨row, hrow, heq⟩ := List.mem_map.1 hmem
  simp only [Prod.mk.injEq] at heq
  obtain ⟨hc, hk, hn⟩ := heq
  subst hc; subst hk; subst hn
  have h1 := (mem_result hrow).1
  constructor
  · intro hpanel
    rw [h1, countHH, hpanel]
    rw [if_neg Bool.false_ne_true]
    exact length_filterMap_hh_eq_length_filter _
  · intro hpanel
    rw [h1, countHH, hpanel]
    rw [if_pos rfl]
    exact (List.card_toFinset _).symm

theorem c10_null_hh_ignored_witness :
    rowMatches specPeriod ⟨none, "A", "X", 2020, 1, "C1", "K1"⟩ = true ∧
    (get_caste_distribution dNull specPeriod).2 = 1 ∧
    ("C1", "K1", 1) ∈ ((get_caste_distribution dNull specPeriod).1).map
        (fun row => (row.caste, row.caste_category, row.householdsCount)) ∧
    1 = ((groupRows (filteredRows dNull specPeriod) ("C1", "K1")).filter
          (fun r => (r.hh_id).isSome)).length :=
  ⟨by decide, by decide, by decide,
   (c10_null_hh_ignored dNull specPeriod "C1" "K1" 1 (by decide)).1 rfl⟩

/-- C7 counterexample: no InvalidFilter validation exists in the code —
with a region outside the resolved region domain the aggregation query
is still built and executed, and returns the normal empty result instead
of failing. -/
theorem c7_counterexample :
    (("B" : String) ∉ load_states dOneRow) ∧
    get_caste_distribution_exc (some dOneRow) ⟨"B", 2020, 1, false, "X"⟩ =
      Except.ok ([], 0) := by
  exact ⟨by decide, rfl⟩

/-- C7 amended: the code validates nothing; a selection whose region is
outside the resolved region domain — or, in period mode, whose year or
month is outside its resolved domain — simply matches zero rows, and the
executed query returns the empty result (empty sequence, 0) rather than
an InvalidFilter error. -/
theorem c7_no_validation (d : Dataset) (spec : FilterSpec)
    (h : spec.state ∉ load_states d ∨
         (spec.panelMode = false ∧ (spec.year ∉ load_years d ∨ spec.month ∉ load_months d))) :
    get_caste_distribution d spec = ([], 0) := by
  apply result_empty_of_filtered_nil
  rw [filteredRows, List.filter_eq_nil_iff]
  intro r hr hmatch
  rcases h with hst | ⟨hp, hym⟩
  · apply hst
    apply mem_load_states.2
    rw [← state_eq_of_rowMatches hmatch]
    exact List.mem_map_of_mem _ hr
  · obtain ⟨hy, hm⟩ := period_eq_of_rowMatches hmatch hp
    rcases hym with hyd | hmd
    · apply hyd
      apply mem_load_years.2
      rw [← hy]
      exact List.mem_map_of_mem _ hr
    · apply hmd
      apply mem_load_months.2
      rw [← hm]
      exact List.mem_map_of_mem _ hr

theorem c7_no_validation_witness :
    (("B" : String) ∉ load_states dOneRow) ∧
    get_caste_distribution dOneRow ⟨"B", 2020, 1, false, "X"⟩ = ([], 0) :=
  ⟨by decide, c7_no_validation dOneRow ⟨"B", 2020, 1, false, "X"⟩ (Or.inl (by decide))⟩

/-- C4 counterexample: the SQL ORDER BY of the ranking has no secondary
key, so ties are resolved by engine-defined row order, not by any
documented deterministic key.  The two datasets here hold the same rows
(the same SQL table as a multiset) with tied counts, yet rank 1 goes to
CasteA in one physical order and to CasteB in the other. -/
theorem c4_counterexample :
    dTieXY.Perm dTieYX ∧
    (get_caste_distribution dTieXY specPeriod).1.map (fun row => (row.caste, row.rank)) =
      [("CasteA", 1), ("CasteB", 2)] ∧
    (get_caste_distribution dTieYX specPeriod).1.map (fun row => (row.caste, row.rank)) =
      [("CasteB", 1), ("CasteA", 2)] := by
  refine ⟨?_, by decide, by decide⟩
  exact List.Perm.swap _ _ _

/-- C4 amended: the Rank column is exactly 1..n in row order (hence a
permutation of 1..n with rows returned ordered by rank ascending), and
rank 1 carries a maximal householdsCount; ties, however, fall back to
engine-defined group order — no deterministic secondary key exists in
the query. -/
theorem c4_rank_structure (d : Dataset) (spec : FilterSpec) :
    ((get_caste_distribution d spec).1.map (·.rank) =
      (List.range ((get_caste_distribution d spec).1.length)).map (· + 1)) ∧
    (∀ cnt rk cnt1,
      (cnt, rk) ∈ (get_caste_distribution d spec).1.map
        (fun row => (row.householdsCount, row.rank)) →
      (cnt1, 1) ∈ (get_caste_distribution d spec).1.map
        (fun row => (row.householdsCount, row.rank)) →
      cnt ≤ cnt1) := by
  constructor
  · rw [result_unfold, map_rank_mkRankedRows, length_mkRankedRows]
  · intro cnt rk cnt1 hmem hmem1
    rw [result_unfold] at hmem hmem1
    obtain ⟨row, hrow, heq⟩ := List.mem_map.1 hmem
    obtain ⟨row1, hrow1, heq1⟩ := List.mem_map.1 hmem1
    rw [mkRankedRows] at hrow hrow1
    obtain ⟨p, hp, rfl⟩ := List.mem_map.1 hrow
    obtain ⟨q, hq, rfl⟩ := List.mem_map.1 hrow1
    simp only [Prod.mk.injEq] at heq heq1
    obtain ⟨hcnt, -⟩ := heq
    obtain ⟨hcnt1, hrk1⟩ := heq1
    have hq0 : q.1 = 0 := by omega
    have hqs := List.mem_enum_iff_getElem?.1 hq
    rw [hq0] at hqs
    have hps : p.2 ∈ List.insertionSort countGE
        (groupCounts spec.panelMode (filteredRows d spec)) := by
      have h := List.enum_map_snd (List.insertionSort countGE
        (groupCounts spec.panelMode (filteredRows d spec)))
      exact h ▸ List.mem_map_of_mem Prod.snd hp
    have hsorted := List.sorted_insertionSort countGE
      (groupCounts spec.panelMode (filteredRows d spec))
    rcases hdes : List.insertionSort countGE
        (groupCounts spec.panelMode (filteredRows d spec)) with - | ⟨a, t⟩
    · rw [hdes] at hqs
      simp at hqs
    · rw [hdes] at hqs hps hsorted
      rw [List.getElem?_cons_zero] at hqs
      have hqa : q.2 = a := (Option.some_inj.1 hqs).symm
      rcases List.mem_cons.1 hps with hpa | hpt
      · rw [← hcnt, ← hcnt1, hpa, hqa]
      · have hrel : countGE a p.2 := List.rel_of_sorted_cons hsorted p.2 hpt
        rw [← hcnt, ← hcnt1, hqa]
        exact hrel

theorem c4_rank_structure_witness :
    ((1 : Nat), (2 : Nat)) ∈ (get_caste_distribution dRanked specPeriod).1.map
        (fun row => (row.householdsCount, row.rank)) ∧
    ((2 : Nat), (1 : Nat)) ∈ (get_caste_distribution dRanked specPeriod).1.map
        (fun row => (row.householdsCount, row.rank)) ∧
    (1 : Nat) ≤ 2 :=
  ⟨by decide, by decide,
   (c4_rank_structure dRanked specPeriod).2 1 2 2 (by decide) (by decide)⟩

/-! ### Helpers for the percentage claim -/

theorem round2_sub_abs_le (q : ℚ) : |round2 q - q| ≤ 1 / 200 := by
  have h := abs_sub_round (q * 100)
  rw [abs_sub_comm] at h
  have heq : round2 q - q = ((round (q * 100) : ℚ) - q * 100) / 100 := by
    rw [round2]; ring
  rw [heq, abs_div, abs_of_pos (by norm_num : (0 : ℚ) < 100)]
  linarith

theorem list_sum_map_sub {α : Type} (l : List α) (f g : α → ℚ) :
    (l.map (fun x => f x - g x)).sum = (l.map f).sum - (l.map g).sum := by
  induction l with
  | nil => simp
  | cons a t ih =>
    simp only [List.map_cons, List.sum_cons, ih]
    ring

theorem list_abs_sum_le {α : Type} (l : List α) (f : α → ℚ) :
    |(l.map f).sum| ≤ (l.map (fun x => |f x|)).sum := by
  induction l with
  | nil => simp
  | cons a t ih =>
    simp only [List.map_cons, List.sum_cons]
    calc |f a + (t.map f).sum| ≤ |f a| + |(t.map f).sum| := abs_add _ _
      _ ≤ |f a| + (t.map (fun x => |f x|)).sum := by linarith

theorem sum_counts_sorted (d : Dataset) (spec : FilterSpec) :
    ((List.insertionSort countGE (groupCounts spec.panelMode (filteredRows d spec))).map
        (·.2)).sum =
      grandTotalOf (groupCounts spec.panelMode (filteredRows d spec)) :=
  ((List.perm_insertionSort countGE _).map (·.2)).sum_eq

/-- C9: whenever the grand total is positive, every row percentage is
ROUND(count * 100.0 / grandTotal, 2) — the denominator being the same
window total that the returned grand total equals — and the percentages
sum to 100 up to the rounding slack, well within 0.02 per row. -/
theorem c9_percentage_bound (d : Dataset) (spec : FilterSpec)
    (h : 0 < (get_caste_distribution d spec).2) :
    (∀ cnt p, (cnt, p) ∈ (get_caste_distribution d spec).1.map
        (fun row => (row.householdsCount, row.percentage)) →
      p = round2 ((cnt : ℚ) * 100 / ((get_caste_distribution d spec).2 : ℚ))) ∧
    |((get_caste_distribution d spec).1.map (·.percentage)).sum - 100| ≤
      (2 / 100 : ℚ) * (((get_caste_distribution d spec).1.length : ℚ)) := by
  constructor
  · intro cnt p hmem
    obtain ⟨row, hrow, heq⟩ := List.mem_map.1 hmem
    simp only [Prod.mk.injEq] at heq
    obtain ⟨hcnt, hp⟩ := heq
    subst hcnt; subst hp
    exact (mem_result hrow).2
  · have htot : (get_caste_distribution d spec).2 =
        grandTotalOf (groupCounts spec.panelMode (filteredRows d spec)) :=
      total_eq_grandTotal d spec
    have hWpos : 0 < grandTotalOf (groupCounts spec.panelMode (filteredRows d spec)) :=
      htot ▸ h
    have hWne : ((grandTotalOf (groupCounts spec.panelMode (filteredRows d spec)) : Nat) : ℚ) ≠ 0 := by
      exact Nat.cast_ne_zero.mpr hWpos.ne'
    have hpcts : (get_caste_distribution d spec).1.map (·.percentage) =
        (List.insertionSort countGE (groupCounts spec.panelMode (filteredRows d spec))).map
          (fun kc => round2 ((kc.2 : ℚ) * 100 /
            ((grandTotalOf (groupCounts spec.panelMode (filteredRows d spec)) : Nat) : ℚ))) := by
      rw [result_unfold, map_pct_mkRankedRows]
    have hlen : (get_caste_distribution d spec).1.length =
        (List.insertionSort countGE (groupCounts spec.panelMode (filteredRows d spec))).length := by
      rw [result_unfold, length_mkRankedRows]
    have hcast : ((List.insertionSort countGE
          (groupCounts spec.panelMode (filteredRows d spec))).map
            (fun kc => ((kc.2 : Nat) : ℚ))).sum =
        ((grandTotalOf (groupCounts spec.panelMode (filteredRows d spec)) : Nat) : ℚ) := by
      rw [← sum_counts_sorted d spec, Nat.cast_list_sum, List.map_map]
      rfl
    have hqsum : ((List.insertionSort countGE
          (groupCounts spec.panelMode (filteredRows d spec))).map
            (fun kc => (kc.2 : ℚ) * 100 /
              ((grandTotalOf (groupCounts spec.panelMode (filteredRows d spec)) : Nat) : ℚ))).sum
        = 100 := by
      simp only [mul_div_assoc]
      rw [List.sum_map_mul_right, hcast, mul_comm, div_mul_cancel₀ _ hWne]
    rw [hpcts, hlen]
    rw [show ((List.insertionSort countGE (groupCounts spec.panelMode (filteredRows d spec))).map
          (fun kc => round2 ((kc.2 : ℚ) * 100 /
            ((grandTotalOf (groupCounts spec.panelMode (filteredRows d spec)) : Nat) : ℚ)))).sum - 100
        = ((List.insertionSort countGE (groupCounts spec.panelMode (filteredRows d spec))).map
            (fun kc => round2 ((kc.2 : ℚ) * 100 /
              ((grandTotalOf (groupCounts spec.panelMode (filteredRows d spec)) : Nat) : ℚ)) -
              (kc.2 : ℚ) * 100 /
              ((grandTotalOf (groupCounts spec.panelMode (filteredRows d spec)) : Nat) : ℚ))).sum
      from by rw [list_sum_map_sub, hqsum]]
    have hb1 := list_abs_sum_le
      (List.insertionSort countGE (groupCounts spec.panelMode (filteredRows d spec)))
      (fun kc => round2 ((kc.2 : ℚ) * 100 /
        ((grandTotalOf (groupCounts spec.panelMode (filteredRows d spec)) : Nat) : ℚ)) -
        (kc.2 : ℚ) * 100 /
        ((grandTotalOf (groupCounts spec.panelMode (filteredRows d spec)) : Nat) : ℚ))
    have hb2 : ((List.insertionSort countGE
          (groupCounts spec.panelMode (filteredRows d spec))).map
            (fun kc => |round2 ((kc.2 : ℚ) * 100 /
              ((grandTotalOf (groupCounts spec.panelMode (filteredRows d spec)) : Nat) : ℚ)) -
              (kc.2 : ℚ) * 100 /
              ((grandTotalOf (groupCounts spec.panelMode (filteredRows d spec)) : Nat) : ℚ)|)).sum ≤
        ((List.insertionSort countGE
          (groupCounts spec.panelMode (filteredRows d spec))).map
            (fun kc => |round2 ((kc.2 : ℚ) * 100 /
              ((grandTotalOf (groupCounts spec.panelMode (filteredRows d spec)) : Nat) : ℚ)) -
              (kc.2 : ℚ) * 100 /
              ((grandTotalOf (groupCounts spec.panelMode (filteredRows d spec)) : Nat) : ℚ)|)).length •
          ((1 : ℚ) / 200) := by
      apply List.sum_le_card_nsmul
      intro x hx
      obtain ⟨kc, -, rfl⟩ := List.mem_map.1 hx
      exact round2_sub_abs_le _
    rw [List.length_map, nsmul_eq_mul] at hb2
    have hnn : (0 : ℚ) ≤ ((List.insertionSort countGE
        (groupCounts spec.panelMode (filteredRows d spec))).length : ℚ) := Nat.cast_nonneg _
    calc _ ≤ _ := hb1
      _ ≤ _ := hb2
      _ ≤ (2 / 100 : ℚ) * ((List.insertionSort countGE
            (groupCounts spec.panelMode (filteredRows d spec))).length : ℚ) := by nlinarith

theorem c9_percentage_bound_witness :
    0 < (get_caste_distribution dRanked specPeriod).2 ∧
    |((get_caste_distribution dRanked specPeriod).1.map (·.percentage)).sum - 100| ≤
      (2 / 100 : ℚ) * (((get_caste_distribution dRanked specPeriod).1.length : ℚ)) :=
  ⟨by decide, (c9_percentage_bound dRanked specPeriod (by decide)).2⟩
